import Mathlib

/-!
Verification of the FootyForecast prediction core.

The Python source is shallowly embedded: player ratings and form values are
modelled as rationals, float computations as real-number computations, the
fitted scikit-learn regressors as abstract functions into `ℝ × ℝ`, and the
numpy pseudo-random generator as an explicit stream of pre-drawn values
indexed by the 32-bit seed the code derives from the team names.
-/

/-- Shallow embedding of `np.clip(x, lo, hi)` on floats. -/
def clip (x lo hi : ℝ) : ℝ := max lo (min hi x)

/-- Shallow embedding of `np.clip(x, lo, hi)` for integer arguments. -/
def clipZ (x lo hi : ℤ) : ℤ := max lo (min hi x)

/-- Shallow embedding of `np.round` / Python `round`: round half to even. -/
noncomputable def roundHE (x : ℝ) : ℤ :=
  if x - ⌊x⌋ < 1/2 then ⌊x⌋
  else if 1/2 < x - ⌊x⌋ then ⌊x⌋ + 1
  else if 2 ∣ ⌊x⌋ then ⌊x⌋ else ⌊x⌋ + 1

/-- Round half to even on rationals (for `round(x, 1)` on exact inputs). -/
def roundHalfEvenQ (q : ℚ) : ℤ :=
  if q - ⌊q⌋ < 1/2 then ⌊q⌋
  else if 1/2 < q - ⌊q⌋ then ⌊q⌋ + 1
  else if 2 ∣ ⌊q⌋ then ⌊q⌋ else ⌊q⌋ + 1

/-- Shallow embedding of Python `round(q, 1)`. -/
def pyRound1 (q : ℚ) : ℚ := (roundHalfEvenQ (10 * q) : ℚ) / 10

theorem roundHE_intCast (n : ℤ) : roundHE (n : ℝ) = n := by
  unfold roundHE
  rw [Int.floor_intCast]
  norm_num

theorem roundHE_zero : roundHE 0 = 0 := by
  simpa using roundHE_intCast 0

theorem roundHE_one : roundHE 1 = 1 := by
  simpa using roundHE_intCast 1

theorem roundHE_two : roundHE 2 = 2 := by
  simpa using roundHE_intCast 2

theorem roundHE_three : roundHE 3 = 3 := by
  simpa using roundHE_intCast 3

theorem clip_eq_self {x lo hi : ℝ} (h1 : lo ≤ x) (h2 : x ≤ hi) : clip x lo hi = x := by
  unfold clip
  rw [min_eq_right h2, max_eq_right h1]

/-! ## Feature engineering (`src/backend/feature_engineering.py`) -/

/-- Result of `FeatureEngineer.calculate_team_statistics` (lines 18-41).
`std_rating` is the only field needing real arithmetic (`np.std` is a square
root); the rest are exact rational computations on the ratings. -/
structure TeamStats where
  mean_rating : ℚ
  median_rating : ℚ
  max_rating : ℚ
  min_rating : ℚ
  std_rating : ℝ
  rating_range : ℚ
  top3_avg : ℚ
  bottom3_avg : ℚ

/-- Embedding of `np.median`: middle element of the sorted list (mean of the
two middle elements for even length). -/
def medianQ (l : List ℚ) : ℚ :=
  let s := l.insertionSort (· ≤ ·)
  let n := l.length
  if n % 2 = 1 then s.getD (n / 2) 0
  else (s.getD (n / 2 - 1) 0 + s.getD (n / 2) 0) / 2

/-- Shallow embedding of `FeatureEngineer.calculate_team_statistics`. -/
noncomputable def calculate_team_statistics (player_ratings : List ℚ) : TeamStats :=
  let n : ℚ := player_ratings.length
  let mean : ℚ := player_ratings.sum / n
  let s := player_ratings.insertionSort (· ≤ ·)
  let top3 := s.reverse.take 3
  let bottom3 := s.take 3
  { mean_rating := mean
    median_rating := medianQ player_ratings
    max_rating := s.getLastD 0
    min_rating := s.headD 0
    std_rating := Real.sqrt (((player_ratings.map (fun r => (r - mean) ^ 2)).sum / n : ℚ) : ℝ)
    rating_range := s.getLastD 0 - s.headD 0
    top3_avg := top3.sum / top3.length
    bottom3_avg := bottom3.sum / bottom3.length }

/-- Result of `FeatureEngineer.calculate_form_features` (lines 43-73). -/
structure FormFeats where
  total_points : ℤ
  wins : ℕ
  draws : ℕ
  losses : ℕ
  win_rate : ℚ
  weighted_form : ℚ
  momentum : ℚ

/-- Shallow embedding of `FeatureEngineer.calculate_form_features`. -/
def calculate_form_features (recent_results : List ℤ) : FormFeats :=
  let wins := recent_results.countP (· = 3)
  let last2 := recent_results.drop (recent_results.length - 2)
  let first3 := recent_results.take 3
  { total_points := recent_results.sum
    wins := wins
    draws := recent_results.countP (· = 1)
    losses := recent_results.countP (· = 0)
    win_rate := (wins : ℚ) / recent_results.length
    weighted_form := (List.zipWith (fun r w => (r : ℚ) * w) recent_results
      [1/10, 3/20, 1/5, 1/4, 3/10]).sum
    momentum := (last2.sum : ℚ) / last2.length - (first3.sum : ℚ) / first3.length }

/-- Row produced by `FeatureEngineer.engineer_features_from_raw` (lines 75-125);
a record instead of a one-row dataframe. -/
structure FeatureVec where
  home_stats : TeamStats
  away_stats : TeamStats
  home_form : FormFeats
  away_form : FormFeats
  rating_diff : ℚ
  form_diff : ℤ
  top3_diff : ℚ
  momentum_diff : ℚ
  total_strength : ℚ
  strength_quot : ℚ
  home_advantage : ℚ

/-- Shallow embedding of `FeatureEngineer.engineer_features_from_raw`. -/
noncomputable def engineer_features_from_raw (home_players away_players : List ℚ)
    (home_form away_form : List ℤ) : FeatureVec :=
  let hs := calculate_team_statistics home_players
  let aw := calculate_team_statistics away_players
  let hf := calculate_form_features home_form
  let af := calculate_form_features away_form
  { home_stats := hs
    away_stats := aw
    home_form := hf
    away_form := af
    rating_diff := hs.mean_rating - aw.mean_rating
    form_diff := hf.total_points - af.total_points
    top3_diff := hs.top3_avg - aw.top3_avg
    momentum_diff := hf.momentum - af.momentum
    total_strength := hs.mean_rating + aw.mean_rating
    strength_quot := hs.mean_rating / (aw.mean_rating + 1/1000000)
    home_advantage := 1 }

/-! ## Model trainer (`src/backend/model_trainer.py`) -/

/-- The fitted regressors of `FootballModelTrainer` (lines 117-183): ensemble
mode holds two fitted multi-output regressors, the other modes one. The fitted
scikit-learn models are external artifacts, abstracted as functions from a
feature row to the raw continuous `(home_goals, away_goals)` output. -/
inductive TModel (α : Type) where
  | ensemble (rf second : α → ℝ × ℝ)
  | single (m : α → ℝ × ℝ)

/-- One row of `FootballModelTrainer.predict` (lines 185-213): average the two
models in ensemble mode, then `np.round` and `np.clip` to `[0, 8]`. -/
noncomputable def trainer_predict_one {α : Type} (M : TModel α) (x : α) : ℤ × ℤ :=
  match M with
  | .ensemble rf second =>
      (clipZ (roundHE (((rf x).1 + (second x).1) / 2)) 0 8,
       clipZ (roundHE (((rf x).2 + (second x).2) / 2)) 0 8)
  | .single m =>
      (clipZ (roundHE (m x).1) 0 8, clipZ (roundHE (m x).2) 0 8)

/-- Embedding of `FootballModelTrainer.predict` on a whole feature matrix, row by row. -/
noncomputable def trainer_predict {α : Type} (M : TModel α) (xs : List α) : List (ℤ × ℤ) :=
  xs.map (trainer_predict_one M)

/-! ## Prediction agent: validation and `predict_match`
(`src/backend/prediction_agent.py`) -/

/-- The `ValueError`s of `FootballPredictionAgent._validate_inputs`
(lines 362-390), each carrying the offending count or value its message names. -/
inductive ValidationError where
  | homeCount (n : ℕ)
  | awayCount (n : ℕ)
  | ratingRange (r : ℚ)
  | homeFormLen (n : ℕ)
  | awayFormLen (n : ℕ)
  | formValue (v : ℤ)
deriving DecidableEq

/-- Condition `not 50 <= rating <= 99` (line 377). -/
def ratingBad (r : ℚ) : Bool := decide (r < 50) || decide (99 < r)

/-- Condition `result not in 0, 1, 3` (line 389). -/
def formBad (v : ℤ) : Bool := !(decide (v = 0) || decide (v = 1) || decide (v = 3))

/-- Shallow embedding of `FootballPredictionAgent._validate_inputs`, checks in
source order; the first failing check raises. -/
def validate_inputs (hp ap : List ℚ) (hf af : List ℤ) : Except ValidationError Unit :=
  if hp.length ≠ 11 then Except.error (ValidationError.homeCount hp.length)
  else if ap.length ≠ 11 then Except.error (ValidationError.awayCount ap.length)
  else match (hp ++ ap).find? ratingBad with
  | some r => Except.error (ValidationError.ratingRange r)
  | none =>
    if hf.length ≠ 5 then Except.error (ValidationError.homeFormLen hf.length)
    else if af.length ≠ 5 then Except.error (ValidationError.awayFormLen af.length)
    else match (hf ++ af).find? formBad with
    | some v => Except.error (ValidationError.formValue v)
    | none => Except.ok ()

/-- Errors `predict_match` can raise: a validation error, or the
`"No model loaded"` `ValueError` (line 103). -/
inductive PMErr where
  | validation (e : ValidationError)
  | noModel
deriving DecidableEq

/-- The dictionary returned by `FootballPredictionAgent.predict_match`
(lines 136-146). -/
structure PredResult where
  home_score : ℤ
  away_score : ℤ
  result : String
  home_team_strength : ℚ
  away_team_strength : ℚ
  strength_advantage : ℚ
  home_form_points : ℤ
  away_form_points : ℤ
  form_advantage : ℤ
deriving DecidableEq

/-- Embedding of `np.mean` on a rational list. -/
def meanQ (l : List ℚ) : ℚ := l.sum / l.length

/-- Shallow embedding of `FootballPredictionAgent.predict_match` (lines 77-146).
The trainer is `none` when no model was loaded or trained. -/
noncomputable def predict_match (trainer : Option (TModel FeatureVec))
    (hp ap : List ℚ) (hf af : List ℤ) : Except PMErr PredResult :=
  match validate_inputs hp ap hf af with
  | Except.error e => Except.error (PMErr.validation e)
  | Except.ok _ =>
    match trainer with
    | none => Except.error PMErr.noModel
    | some M =>
      let features := engineer_features_from_raw hp ap hf af
      let p := trainer_predict_one M features
      let home_strength := meanQ hp
      let away_strength := meanQ ap
      Except.ok
        { home_score := p.1
          away_score := p.2
          result := if p.1 > p.2 then "Home Win" else if p.1 < p.2 then "Away Win" else "Draw"
          home_team_strength := pyRound1 home_strength
          away_team_strength := pyRound1 away_strength
          strength_advantage := pyRound1 (home_strength - away_strength)
          home_form_points := hf.sum
          away_form_points := af.sum
          form_advantage := hf.sum - af.sum }

/-! ## Scoreline refiner (`FootballPredictionAgent._refine_scoreline`,
lines 282-335) -/

/-- The values the seeded `np.random.default_rng` generator supplies during one
`_refine_scoreline` call, one field per potential draw site (in source order:
`rng.uniform(-0.35, 0.55)`, `rng.normal(0, 0.65)`, `rng.normal(0, 0.75)`,
`rng.normal(0, 0.4)`, `rng.random()`, `rng.normal(0, 0.15)`). Floating-point
sampling itself is not modelled; the draws are arbitrary reals determined by
the seed. -/
structure RefDraws where
  style_variation : ℝ
  total_noise : ℝ
  diff_noise : ℝ
  nudge : ℝ
  tiebreak : ℝ
  bias_noise : ℝ

/-- Lines 325-330: if the rounded scores tie, bump the side the signals favor. -/
noncomputable def tie_adjust (h a : ℤ) (noisy_diff bias : ℝ) : ℤ × ℤ :=
  if h = a then
    if noisy_diff > 0.4 ∨ bias > 0.15 then (min (h + 1) 6, a)
    else if noisy_diff < -0.4 ∨ bias < -0.15 then (h, min (a + 1) 6)
    else (h, a)
  else (h, a)

/-- Lines 332-333: a 0-0 scoreline is forced to 1-0. -/
def final_correction (p : ℤ × ℤ) : ℤ × ℤ :=
  if p.1 = p.2 ∧ p.2 = 0 then (1, p.2) else p

/-- Shallow embedding of `_refine_scoreline` after the generator is seeded:
the body of lines 294-335 applied to one batch of draws. -/
noncomputable def refine_scoreline (d : RefDraws) (base_home base_away : ℤ)
    (strength_edge form_edge : ℝ) : ℤ × ℤ :=
  let base_total : ℤ := max (base_home + base_away) 2
  let expected_diff : ℝ :=
    ((base_home : ℝ) - (base_away : ℝ)) + 0.12 * strength_edge + 0.08 * form_edge
  let noisy_total := clip ((base_total : ℝ) + d.style_variation + d.total_noise) 1.6 7.0
  let edge_hint := Real.tanh ((0.18 * strength_edge + 0.12 * form_edge) / 4)
  let nd0 := clip (expected_diff + edge_hint + d.diff_noise) (-4.5) 4.5
  let nd :=
    if |nd0| < 0.35 then
      let nudge := if d.nudge = 0 then (if d.tiebreak > 0.5 then (0.35 : ℝ) else -0.35) else d.nudge
      nd0 + nudge + 0.35 * Real.sign (if edge_hint ≠ 0 then edge_hint else nudge)
    else nd0
  let home_est := noisy_total / 2 + nd / 2
  let away_est := noisy_total - home_est
  let hs := clipZ (roundHE home_est) 0 6
  let as2 := clipZ (roundHE away_est) 0 6
  final_correction (tie_adjust hs as2 nd (edge_hint + d.bias_noise))

/-- Line 291: `seed = abs(hash(f"{home}-{away}")) % (2**32)`. Python's string
hash is process-dependent, so it is a parameter. -/
def seedOf (h : String → ℤ) (home_name away_name : String) : ℕ :=
  (h (home_name ++ "-" ++ away_name)).natAbs % 2 ^ 32

/-- Embedding of `_refine_scoreline` including the seeding: `stream` maps each possible seed
to the draws the generator seeded that way would supply. -/
noncomputable def refineNamed (h : String → ℤ) (stream : ℕ → RefDraws)
    (home_name away_name : String) (base_home base_away : ℤ)
    (strength_edge form_edge : ℝ) : ℤ × ℤ :=
  refine_scoreline (stream (seedOf h home_name away_name)) base_home base_away
    strength_edge form_edge

/-! ## Probability transform of `predict_match_detailed` (lines 234-270) -/

/-- Line 241: `tie_bias = tanh((0.6*strength_edge + 0.4*form_edge) / 20)`. -/
noncomputable def tie_bias (se fe : ℝ) : ℝ := Real.tanh ((0.6 * se + 0.4 * fe) / 20)

/-- Line 251: `raw_home = exp((diff + tie_bias) / 1.65)`. -/
noncomputable def raw_home (diff : ℤ) (se fe : ℝ) : ℝ :=
  Real.exp (((diff : ℝ) + tie_bias se fe) / 1.65)

/-- Line 252: `raw_away = exp((-diff - tie_bias) / 1.65)`. -/
noncomputable def raw_away (diff : ℤ) (se fe : ℝ) : ℝ :=
  Real.exp ((-(diff : ℝ) - tie_bias se fe) / 1.65)

/-- Line 253: `raw_draw = 0.35 * exp(-|diff|/(1.65*0.9) - |tie_bias|*0.35) + 0.12`. -/
noncomputable def raw_draw (diff : ℤ) (se fe : ℝ) : ℝ :=
  0.35 * Real.exp (-|(diff : ℝ)| / (1.65 * 0.9) - |tie_bias se fe| * 0.35) + 0.12

/-- Line 254: `total = raw_home + raw_away + raw_draw`. -/
noncomputable def raw_total (diff : ℤ) (se fe : ℝ) : ℝ :=
  raw_home diff se fe + raw_away diff se fe + raw_draw diff se fe

/-- Line 257: `base_probs['home_win']`. -/
noncomputable def base_home (diff : ℤ) (se fe : ℝ) : ℝ :=
  raw_home diff se fe / raw_total diff se fe

/-- Line 258: `base_probs['draw']`. -/
noncomputable def base_draw (diff : ℤ) (se fe : ℝ) : ℝ :=
  raw_draw diff se fe / raw_total diff se fe

/-- Line 259: `base_probs['away_win']`. -/
noncomputable def base_away (diff : ℤ) (se fe : ℝ) : ℝ :=
  raw_away diff se fe / raw_total diff se fe

/-- Lines 262-266: blend with the neutral prior `0.37` and clip to `[0.05, 0.9]`. -/
noncomputable def blended_home (diff : ℤ) (se fe : ℝ) : ℝ :=
  max 0.05 (min 0.9 (0.72 * base_home diff se fe + 0.28 * 0.37))

/-- Lines 262-266, draw component (neutral prior `0.26`). -/
noncomputable def blended_draw (diff : ℤ) (se fe : ℝ) : ℝ :=
  max 0.05 (min 0.9 (0.72 * base_draw diff se fe + 0.28 * 0.26))

/-- Lines 262-266, away component (neutral prior `0.37`). -/
noncomputable def blended_away (diff : ℤ) (se fe : ℝ) : ℝ :=
  max 0.05 (min 0.9 (0.72 * base_away diff se fe + 0.28 * 0.37))

/-- Line 267: `blend_total = sum(blended.values())`. -/
noncomputable def blend_total (diff : ℤ) (se fe : ℝ) : ℝ :=
  blended_home diff se fe + blended_draw diff se fe + blended_away diff se fe

/-- Line 268: the renormalized `(home_win, draw, away_win)` probabilities. -/
noncomputable def prob_triple (diff : ℤ) (se fe : ℝ) : ℝ × ℝ × ℝ :=
  (blended_home diff se fe / blend_total diff se fe,
   blended_draw diff se fe / blend_total diff se fe,
   blended_away diff se fe / blend_total diff se fe)

/-- Line 270: `max(probs, key=probs.get).replace('_win', '')`, with Python's
first-maximum tie behavior over insertion order `home_win, draw, away_win`. -/
noncomputable def suggested_of (h d a : ℝ) : String :=
  if h ≥ d ∧ h ≥ a then "home" else if d ≥ a then "draw" else "away"

/-- The dictionary returned by `predict_match_detailed` (lines 272-280), minus
the formatted report string. -/
structure DetailedResult where
  home_win : ℝ
  draw : ℝ
  away_win : ℝ
  suggested : String
  home_score : ℤ
  away_score : ℤ

/-- Shallow embedding of `FootballPredictionAgent.predict_match_detailed`
(lines 148-280): validate and predict via `predict_match`, refine the
scoreline, then derive the probability triple from the refined goal
difference and the strength/form edges. -/
noncomputable def predict_match_detailed (h : String → ℤ) (stream : ℕ → RefDraws)
    (home_name away_name : String) (trainer : Option (TModel FeatureVec))
    (hp ap : List ℚ) (hf af : List ℤ) : Except PMErr DetailedResult :=
  match predict_match trainer hp ap hf af with
  | Except.error e => Except.error e
  | Except.ok pm =>
    let p := refineNamed h stream home_name away_name pm.home_score pm.away_score
      (pm.strength_advantage : ℝ) (pm.form_advantage : ℝ)
    let t := prob_triple (p.1 - p.2) (pm.strength_advantage : ℝ) (pm.form_advantage : ℝ)
    Except.ok
      { home_win := t.1
        draw := t.2.1
        away_win := t.2.2
        suggested := suggested_of t.1 t.2.1 t.2.2
        home_score := p.1
        away_score := p.2 }

/-! ## Spec-side restatement of the probability algorithm (spec section 4.4,
steps 1-7), written from the spec text for comparison with the code. -/

/-- The three outcomes of the probability distribution. -/
inductive Outcome where
  | home
  | draw
  | away
deriving DecidableEq

/-- Spec step 6: the fixed neutral prior `{home: 0.37, draw: 0.26, away: 0.37}`. -/
def neutral : Outcome → ℝ
  | .home => 0.37
  | .draw => 0.26
  | .away => 0.37

/-- Spec step 3: `temperature = 1.65`. -/
def spec_temperature : ℝ := 1.65

/-- Spec step 2: `tie_bias = tanh((0.6*strength_advantage + 0.4*form_advantage)/20)`. -/
noncomputable def spec_tie_bias (sa fa : ℝ) : ℝ := Real.tanh ((0.6 * sa + 0.4 * fa) / 20)

/-- Spec step 3: the three logits. -/
noncomputable def spec_logit (diff : ℤ) (sa fa : ℝ) : Outcome → ℝ
  | .home => ((diff : ℝ) + spec_tie_bias sa fa) / spec_temperature
  | .away => (-(diff : ℝ) - spec_tie_bias sa fa) / spec_temperature
  | .draw => -|(diff : ℝ)| / (spec_temperature * 0.9) - |spec_tie_bias sa fa| * 0.35

/-- Spec step 4: exponentiate, with `raw_draw = 0.35*exp(draw_logit) + 0.12`. -/
noncomputable def spec_raw (diff : ℤ) (sa fa : ℝ) : Outcome → ℝ
  | .draw => 0.35 * Real.exp (spec_logit diff sa fa .draw) + 0.12
  | .home => Real.exp (spec_logit diff sa fa .home)
  | .away => Real.exp (spec_logit diff sa fa .away)

/-- Spec step 5: each raw value over the sum of all three. -/
noncomputable def spec_base (diff : ℤ) (sa fa : ℝ) (o : Outcome) : ℝ :=
  spec_raw diff sa fa o /
    (spec_raw diff sa fa .home + spec_raw diff sa fa .away + spec_raw diff sa fa .draw)

/-- Spec step 6: `blended[k] = clip(0.72*base_probs[k] + 0.28*neutral[k], 0.05, 0.9)`. -/
noncomputable def spec_blend (diff : ℤ) (sa fa : ℝ) (o : Outcome) : ℝ :=
  max 0.05 (min 0.9 (0.72 * spec_base diff sa fa o + 0.28 * neutral o))

/-- Spec step 6, renormalization: blended over the sum of the three blended values. -/
noncomputable def spec_probs (diff : ℤ) (sa fa : ℝ) (o : Outcome) : ℝ :=
  spec_blend diff sa fa o /
    (spec_blend diff sa fa .home + spec_blend diff sa fa .draw + spec_blend diff sa fa .away)

/-! ## Properties of the probability triple -/

theorem raw_home_pos (diff : ℤ) (se fe : ℝ) : 0 < raw_home diff se fe :=
  Real.exp_pos _

theorem raw_away_pos (diff : ℤ) (se fe : ℝ) : 0 < raw_away diff se fe :=
  Real.exp_pos _

theorem raw_draw_pos (diff : ℤ) (se fe : ℝ) : 0 < raw_draw diff se fe := by
  unfold raw_draw
  positivity

theorem raw_total_pos (diff : ℤ) (se fe : ℝ) : 0 < raw_total diff se fe :=
  add_pos (add_pos (raw_home_pos diff se fe) (raw_away_pos diff se fe)) (raw_draw_pos diff se fe)

theorem blended_home_ge (diff : ℤ) (se fe : ℝ) : 0.05 ≤ blended_home diff se fe :=
  le_max_left _ _

theorem blended_draw_ge (diff : ℤ) (se fe : ℝ) : 0.05 ≤ blended_draw diff se fe :=
  le_max_left _ _

theorem blended_away_ge (diff : ℤ) (se fe : ℝ) : 0.05 ≤ blended_away diff se fe :=
  le_max_left _ _

theorem blend_total_pos (diff : ℤ) (se fe : ℝ) : 0 < blend_total diff se fe := by
  unfold blend_total
  have h1 := blended_home_ge diff se fe
  have h2 := blended_draw_ge diff se fe
  have h3 := blended_away_ge diff se fe
  nlinarith

theorem prob_triple_props (diff : ℤ) (se fe : ℝ) :
    (0 ≤ (prob_triple diff se fe).1 ∧ (prob_triple diff se fe).1 ≤ 1) ∧
    (0 ≤ (prob_triple diff se fe).2.1 ∧ (prob_triple diff se fe).2.1 ≤ 1) ∧
    (0 ≤ (prob_triple diff se fe).2.2 ∧ (prob_triple diff se fe).2.2 ≤ 1) ∧
    (prob_triple diff se fe).1 + (prob_triple diff se fe).2.1 + (prob_triple diff se fe).2.2
      = 1 := by
  have h1 := blended_home_ge diff se fe
  have h2 := blended_draw_ge diff se fe
  have h3 := blended_away_ge diff se fe
  have hT := blend_total_pos diff se fe
  have hTsum : blended_home diff se fe + blended_draw diff se fe + blended_away diff se fe
      = blend_total diff se fe := rfl
  unfold prob_triple
  refine ⟨⟨?_, ?_⟩, ⟨?_, ?_⟩, ⟨?_, ?_⟩, ?_⟩
  · exact div_nonneg (by linarith) hT.le
  · rw [div_le_one hT]; linarith
  · exact div_nonneg (by linarith) hT.le
  · rw [div_le_one hT]; linarith
  · exact div_nonneg (by linarith) hT.le
  · rw [div_le_one hT]; linarith
  · rw [div_add_div_same, div_add_div_same, hTsum, div_self hT.ne']

/-- C1: every probability triple returned by `predict_match_detailed` has each
of `home_win`, `draw`, `away_win` in `[0, 1]`, and they sum to `1` exactly in
the real-number model — in particular within the claimed `1e-6` tolerance. -/
theorem pmd_probabilities_valid
    (h : String → ℤ) (stream : ℕ → RefDraws) (home_name away_name : String)
    (trainer : Option (TModel FeatureVec)) (hp ap : List ℚ) (hf af : List ℤ)
    (r : DetailedResult)
    (hok : predict_match_detailed h stream home_name away_name trainer hp ap hf af
      = Except.ok r) :
    (0 ≤ r.home_win ∧ r.home_win ≤ 1) ∧ (0 ≤ r.draw ∧ r.draw ≤ 1) ∧
    (0 ≤ r.away_win ∧ r.away_win ≤ 1) ∧
    r.home_win + r.draw + r.away_win = 1 ∧
    |r.home_win + r.draw + r.away_win - 1| ≤ 1e-6 := by
  unfold predict_match_detailed at hok
  cases hpm : predict_match trainer hp ap hf af with
  | error e => rw [hpm] at hok; cases hok
  | ok pm =>
    rw [hpm] at hok
    injection hok with h2
    subst h2
    have hp3 := prob_triple_props
      ((refineNamed h stream home_name away_name pm.home_score pm.away_score
          (pm.strength_advantage : ℝ) (pm.form_advantage : ℝ)).1 -
        (refineNamed h stream home_name away_name pm.home_score pm.away_score
          (pm.strength_advantage : ℝ) (pm.form_advantage : ℝ)).2)
      (pm.strength_advantage : ℝ) (pm.form_advantage : ℝ)
    refine ⟨hp3.1, hp3.2.1, hp3.2.2.1, hp3.2.2.2, ?_⟩
    have e1 : (prob_triple
        ((refineNamed h stream home_name away_name pm.home_score pm.away_score
            (pm.strength_advantage : ℝ) (pm.form_advantage : ℝ)).1 -
          (refineNamed h stream home_name away_name pm.home_score pm.away_score
            (pm.strength_advantage : ℝ) (pm.form_advantage : ℝ)).2)
        (pm.strength_advantage : ℝ) (pm.form_advantage : ℝ)).1 +
        (prob_triple
        ((refineNamed h stream home_name away_name pm.home_score pm.away_score
            (pm.strength_advantage : ℝ) (pm.form_advantage : ℝ)).1 -
          (refineNamed h stream home_name away_name pm.home_score pm.away_score
            (pm.strength_advantage : ℝ) (pm.form_advantage : ℝ)).2)
        (pm.strength_advantage : ℝ) (pm.form_advantage : ℝ)).2.1 +
        (prob_triple
        ((refineNamed h stream home_name away_name pm.home_score pm.away_score
            (pm.strength_advantage : ℝ) (pm.form_advantage : ℝ)).1 -
          (refineNamed h stream home_name away_name pm.home_score pm.away_score
            (pm.strength_advantage : ℝ) (pm.form_advantage : ℝ)).2)
        (pm.strength_advantage : ℝ) (pm.form_advantage : ℝ)).2.2 = 1 := hp3.2.2.2
    rw [show (1e-6 : ℝ) = 1/1000000 by norm_num]
    rw [e1]
    norm_num

theorem base_home_pos (diff : ℤ) (se fe : ℝ) : 0 < base_home diff se fe :=
  div_pos (raw_home_pos diff se fe) (raw_total_pos diff se fe)

theorem base_draw_pos (diff : ℤ) (se fe : ℝ) : 0 < base_draw diff se fe :=
  div_pos (raw_draw_pos diff se fe) (raw_total_pos diff se fe)

theorem base_away_pos (diff : ℤ) (se fe : ℝ) : 0 < base_away diff se fe :=
  div_pos (raw_away_pos diff se fe) (raw_total_pos diff se fe)

theorem base_home_lt_one (diff : ℤ) (se fe : ℝ) : base_home diff se fe < 1 := by
  rw [base_home, div_lt_one (raw_total_pos diff se fe), raw_total]
  have h2 := raw_away_pos diff se fe
  have h3 := raw_draw_pos diff se fe
  linarith

theorem base_draw_lt_one (diff : ℤ) (se fe : ℝ) : base_draw diff se fe < 1 := by
  rw [base_draw, div_lt_one (raw_total_pos diff se fe), raw_total]
  have h1 := raw_home_pos diff se fe
  have h2 := raw_away_pos diff se fe
  linarith

theorem base_away_lt_one (diff : ℤ) (se fe : ℝ) : base_away diff se fe < 1 := by
  rw [base_away, div_lt_one (raw_total_pos diff se fe), raw_total]
  have h1 := raw_home_pos diff se fe
  have h3 := raw_draw_pos diff se fe
  linarith

theorem blended_home_eq (diff : ℤ) (se fe : ℝ) :
    blended_home diff se fe = 0.72 * base_home diff se fe + 0.28 * 0.37 := by
  have h1 := base_home_pos diff se fe
  have h2 := base_home_lt_one diff se fe
  unfold blended_home
  rw [min_eq_right (by nlinarith), max_eq_right (by nlinarith)]

theorem blended_draw_eq (diff : ℤ) (se fe : ℝ) :
    blended_draw diff se fe = 0.72 * base_draw diff se fe + 0.28 * 0.26 := by
  have h1 := base_draw_pos diff se fe
  have h2 := base_draw_lt_one diff se fe
  unfold blended_draw
  rw [min_eq_right (by nlinarith), max_eq_right (by nlinarith)]

theorem blended_away_eq (diff : ℤ) (se fe : ℝ) :
    blended_away diff se fe = 0.72 * base_away diff se fe + 0.28 * 0.37 := by
  have h1 := base_away_pos diff se fe
  have h2 := base_away_lt_one diff se fe
  unfold blended_away
  rw [min_eq_right (by nlinarith), max_eq_right (by nlinarith)]

theorem base_sum_one (diff : ℤ) (se fe : ℝ) :
    base_home diff se fe + base_draw diff se fe + base_away diff se fe = 1 := by
  unfold base_home base_draw base_away
  rw [div_add_div_same, div_add_div_same,
    show raw_home diff se fe + raw_draw diff se fe + raw_away diff se fe
      = raw_total diff se fe by rw [raw_total]; ring]
  exact div_self (raw_total_pos diff se fe).ne'

theorem blend_total_one (diff : ℤ) (se fe : ℝ) : blend_total diff se fe = 1 := by
  unfold blend_total
  rw [blended_home_eq, blended_draw_eq, blended_away_eq]
  linear_combination (0.72 : ℝ) * base_sum_one diff se fe

/-- C10: the clip to `[0.05, 0.9]` in the blending step never alters a value
(each pre-clip blend already lies strictly inside), the blended values sum to
`1` before renormalization, and every returned probability lies in
`[0.0728, 0.8236]`. -/
theorem pmd_blend_clip_noop (diff : ℤ) (se fe : ℝ) :
    (blended_home diff se fe = 0.72 * base_home diff se fe + 0.28 * 0.37 ∧
     blended_draw diff se fe = 0.72 * base_draw diff se fe + 0.28 * 0.26 ∧
     blended_away diff se fe = 0.72 * base_away diff se fe + 0.28 * 0.37) ∧
    blend_total diff se fe = 1 ∧
    (0.0728 ≤ (prob_triple diff se fe).1 ∧ (prob_triple diff se fe).1 ≤ 0.8236) ∧
    (0.0728 ≤ (prob_triple diff se fe).2.1 ∧ (prob_triple diff se fe).2.1 ≤ 0.8236) ∧
    (0.0728 ≤ (prob_triple diff se fe).2.2 ∧ (prob_triple diff se fe).2.2 ≤ 0.8236) := by
  refine ⟨⟨blended_home_eq diff se fe, blended_draw_eq diff se fe, blended_away_eq diff se fe⟩,
    blend_total_one diff se fe, ?_, ?_, ?_⟩
  · unfold prob_triple
    rw [blend_total_one, div_one, blended_home_eq]
    have h1 := base_home_pos diff se fe
    have h2 := base_home_lt_one diff se fe
    constructor <;> nlinarith
  · unfold prob_triple
    rw [blend_total_one, div_one, blended_draw_eq]
    have h1 := base_draw_pos diff se fe
    have h2 := base_draw_lt_one diff se fe
    constructor <;> nlinarith
  · unfold prob_triple
    rw [blend_total_one, div_one, blended_away_eq]
    have h1 := base_away_pos diff se fe
    have h2 := base_away_lt_one diff se fe
    constructor <;> nlinarith

/-! ## Scoreline refiner invariants -/

theorem clipZ06_mem (x : ℤ) : 0 ≤ clipZ x 0 6 ∧ clipZ x 0 6 ≤ 6 := by
  unfold clipZ
  exact ⟨le_max_left _ _, max_le (by norm_num) (min_le_left _ _)⟩

theorem tie_adjust_mem (h a : ℤ) (nd b : ℝ) (hh0 : 0 ≤ h) (hh6 : h ≤ 6)
    (ha0 : 0 ≤ a) (ha6 : a ≤ 6) :
    0 ≤ (tie_adjust h a nd b).1 ∧ (tie_adjust h a nd b).1 ≤ 6 ∧
    0 ≤ (tie_adjust h a nd b).2 ∧ (tie_adjust h a nd b).2 ≤ 6 := by
  unfold tie_adjust
  split_ifs <;> refine ⟨?_, ?_, ?_, ?_⟩ <;> simp only [] <;> omega

theorem final_correction_props (p : ℤ × ℤ) (h1 : 0 ≤ p.1) (h2 : p.1 ≤ 6)
    (h3 : 0 ≤ p.2) (h4 : p.2 ≤ 6) :
    0 ≤ (final_correction p).1 ∧ (final_correction p).1 ≤ 6 ∧
    0 ≤ (final_correction p).2 ∧ (final_correction p).2 ≤ 6 ∧
    ¬((final_correction p).1 = 0 ∧ (final_correction p).2 = 0) := by
  unfold final_correction
  split_ifs with hc
  · exact ⟨by norm_num, by norm_num, h3, h4, by omega⟩
  · refine ⟨h1, h2, h3, h4, fun hz => hc ⟨?_, hz.2⟩⟩
    omega

theorem refine_post_mem (x y : ℤ) (nd b : ℝ) :
    0 ≤ (final_correction (tie_adjust (clipZ x 0 6) (clipZ y 0 6) nd b)).1 ∧
    (final_correction (tie_adjust (clipZ x 0 6) (clipZ y 0 6) nd b)).1 ≤ 6 ∧
    0 ≤ (final_correction (tie_adjust (clipZ x 0 6) (clipZ y 0 6) nd b)).2 ∧
    (final_correction (tie_adjust (clipZ x 0 6) (clipZ y 0 6) nd b)).2 ≤ 6 ∧
    ¬((final_correction (tie_adjust (clipZ x 0 6) (clipZ y 0 6) nd b)).1 = 0 ∧
      (final_correction (tie_adjust (clipZ x 0 6) (clipZ y 0 6) nd b)).2 = 0) := by
  obtain ⟨hx0, hx6⟩ := clipZ06_mem x
  obtain ⟨hy0, hy6⟩ := clipZ06_mem y
  obtain ⟨t1, t2, t3, t4⟩ := tie_adjust_mem (clipZ x 0 6) (clipZ y 0 6) nd b hx0 hx6 hy0 hy6
  exact final_correction_props _ t1 t2 t3 t4

/-- C3: every pair returned by `_refine_scoreline` consists of integers in
`[0, 6]` and is never `(0, 0)`; the final source check turns a `0-0` pair into
`1-0`, as the conjunct about `final_correction` states. -/
theorem refine_scoreline_bounds (d : RefDraws) (base_home base_away : ℤ) (se fe : ℝ) :
    (0 ≤ (refine_scoreline d base_home base_away se fe).1 ∧
     (refine_scoreline d base_home base_away se fe).1 ≤ 6 ∧
     0 ≤ (refine_scoreline d base_home base_away se fe).2 ∧
     (refine_scoreline d base_home base_away se fe).2 ≤ 6 ∧
     ¬((refine_scoreline d base_home base_away se fe).1 = 0 ∧
       (refine_scoreline d base_home base_away se fe).2 = 0)) ∧
    final_correction (0, 0) = (1, 0) := by
  constructor
  · unfold refine_scoreline
    exact refine_post_mem _ _ _ _
  · rfl

theorem refine_eval_A : refine_scoreline ⟨0, 0, 0, 0, 0, 0⟩ 2 0 0 0 = (2, 0) := by
  unfold refine_scoreline tie_adjust final_correction
  norm_num [clip, clipZ, Real.tanh_zero, roundHE_two, roundHE_zero, abs_of_nonneg,
    max_def, min_def]

theorem refine_eval_B : refine_scoreline ⟨0, 2, 0, 0, 0, 0⟩ 2 0 0 0 = (3, 1) := by
  unfold refine_scoreline tie_adjust final_correction
  norm_num [clip, clipZ, Real.tanh_zero, roundHE_three, roundHE_one, abs_of_nonneg,
    max_def, min_def]

/-- A concrete stand-in for Python's (process-salted) string hash: the code of
the first character. -/
def nameHash (s : String) : ℤ := ((s.data.headD 'x').toNat : ℤ)

/-- A concrete seed-to-draws stream under which the two orders of the fixture
`"a"` vs `"b"` receive different generator draws. -/
def twoStream (n : ℕ) : RefDraws :=
  if n = 97 then ⟨0, 0, 0, 0, 0, 0⟩ else ⟨0, 2, 0, 0, 0, 0⟩

theorem refineNamed_ab : refineNamed nameHash twoStream "a" "b" 2 0 0 0 = (2, 0) := by
  unfold refineNamed
  rw [show seedOf nameHash "a" "b" = 97 from rfl]
  rw [show twoStream 97 = ⟨0, 0, 0, 0, 0, 0⟩ from rfl]
  exact refine_eval_A

theorem refineNamed_ba : refineNamed nameHash twoStream "b" "a" 2 0 0 0 = (3, 1) := by
  unfold refineNamed
  rw [show seedOf nameHash "b" "a" = 98 from rfl]
  rw [show twoStream 98 = ⟨0, 2, 0, 0, 0, 0⟩ from rfl]
  exact refine_eval_B

/-- C2: the refined scoreline depends on the team names only through the seed
derived from the ordered string `home-away` — so identical arguments always
give identical results — while swapping the home and away names changes the
seeded draws and may change the result, witnessed by a concrete fixture. -/
theorem refine_deterministic_order_sensitive :
    (∀ (h : String → ℤ) (stream : ℕ → RefDraws) (hn1 an1 hn2 an2 : String)
        (bh ba : ℤ) (se fe : ℝ),
        h (hn1 ++ "-" ++ an1) = h (hn2 ++ "-" ++ an2) →
        refineNamed h stream hn1 an1 bh ba se fe
          = refineNamed h stream hn2 an2 bh ba se fe) ∧
    (∃ (h : String → ℤ) (stream : ℕ → RefDraws) (hn an : String) (bh ba : ℤ) (se fe : ℝ),
        refineNamed h stream hn an bh ba se fe
          ≠ refineNamed h stream an hn bh ba se fe) := by
  constructor
  · intro h stream hn1 an1 hn2 an2 bh ba se fe hh
    unfold refineNamed seedOf
    rw [hh]
  · refine ⟨nameHash, twoStream, "a", "b", 2, 0, 0, 0, ?_⟩
    rw [refineNamed_ab, refineNamed_ba]
    simp

/-- Closed instance of the determinism half of C2 at a concrete hash, stream
and fixture. -/
theorem refine_deterministic_order_sensitive_witness :
    refineNamed (fun _ => 0) twoStream "P" "Q" 1 1 0 0
      = refineNamed (fun _ => 0) twoStream "R" "S" 1 1 0 0 :=
  refine_deterministic_order_sensitive.1 _ _ _ _ _ _ _ _ _ _ rfl

theorem clipZ08_mem (x : ℤ) : 0 ≤ clipZ x 0 8 ∧ clipZ x 0 8 ≤ 8 := by
  unfold clipZ
  exact ⟨le_max_left _ _, max_le (by norm_num) (min_le_left _ _)⟩

/-- C6: in ensemble mode `FootballModelTrainer.predict` returns, per row, the
element-wise average of the two models' raw outputs rounded and clipped to
`[0, 8]`; in single-model mode it rounds and clips the single model's output;
hence every returned goal pair consists of integers in `[0, 8]`. -/
theorem trainer_predict_spec :
    (∀ {α : Type} (rf second : α → ℝ × ℝ) (xs : List α),
      trainer_predict (TModel.ensemble rf second) xs
        = xs.map (fun x =>
            (clipZ (roundHE (((rf x).1 + (second x).1) / 2)) 0 8,
             clipZ (roundHE (((rf x).2 + (second x).2) / 2)) 0 8))) ∧
    (∀ {α : Type} (m : α → ℝ × ℝ) (xs : List α),
      trainer_predict (TModel.single m) xs
        = xs.map (fun x => (clipZ (roundHE (m x).1) 0 8, clipZ (roundHE (m x).2) 0 8))) ∧
    (∀ {α : Type} (M : TModel α) (xs : List α), ∀ p ∈ trainer_predict M xs,
      0 ≤ p.1 ∧ p.1 ≤ 8 ∧ 0 ≤ p.2 ∧ p.2 ≤ 8) := by
  refine ⟨?_, ?_, ?_⟩
  · intro α rf second xs
    rfl
  · intro α m xs
    rfl
  · intro α M xs p hp
    rw [trainer_predict, List.mem_map] at hp
    obtain ⟨x, _, rfl⟩ := hp
    cases M with
    | ensemble rf second =>
        exact ⟨(clipZ08_mem _).1, (clipZ08_mem _).2, (clipZ08_mem _).1, (clipZ08_mem _).2⟩
    | single m =>
        exact ⟨(clipZ08_mem _).1, (clipZ08_mem _).2, (clipZ08_mem _).1, (clipZ08_mem _).2⟩

/-- Closed instance of C6's bounds at a concrete one-row prediction. -/
theorem trainer_predict_spec_witness :
    (((2 : ℤ), (0 : ℤ)) ∈
        trainer_predict (TModel.single (fun _ : Unit => ((2 : ℝ), (0 : ℝ)))) [()]) ∧
    (0 ≤ (2 : ℤ) ∧ (2 : ℤ) ≤ 8 ∧ 0 ≤ (0 : ℤ) ∧ (0 : ℤ) ≤ 8) := by
  have hlist : trainer_predict (TModel.single (fun _ : Unit => ((2 : ℝ), (0 : ℝ)))) [()]
      = [((2 : ℤ), (0 : ℤ))] := by
    unfold trainer_predict trainer_predict_one
    norm_num [roundHE_two, roundHE_zero, clipZ, max_def, min_def]
  have hmem : (((2 : ℤ), (0 : ℤ))) ∈
      trainer_predict (TModel.single (fun _ : Unit => ((2 : ℝ), (0 : ℝ)))) [()] := by
    rw [hlist]
    exact List.mem_singleton.mpr rfl
  exact ⟨hmem, trainer_predict_spec.2.2 _ _ _ hmem⟩
theorem validate_ok_iff (hp ap : List ℚ) (hf af : List ℤ) :
    validate_inputs hp ap hf af = Except.ok () ↔
      (hp.length = 11 ∧ ap.length = 11 ∧ (∀ r ∈ hp ++ ap, 50 ≤ r ∧ r ≤ 99) ∧
       hf.length = 5 ∧ af.length = 5 ∧ (∀ v ∈ hf ++ af, v = 0 ∨ v = 1 ∨ v = 3)) := by
  constructor
  · intro h
    rw [validate_inputs] at h
    by_cases h1 : hp.length ≠ 11
    · rw [if_pos h1] at h; cases h
    · rw [if_neg h1] at h
      by_cases h2 : ap.length ≠ 11
      · rw [if_pos h2] at h; cases h
      · rw [if_neg h2] at h
        cases hfind1 : (hp ++ ap).find? ratingBad with
        | some r => rw [hfind1] at h; cases h
        | none =>
          rw [hfind1] at h
          by_cases h3 : hf.length ≠ 5
          · rw [if_pos h3] at h; cases h
          · rw [if_neg h3] at h
            by_cases h4 : af.length ≠ 5
            · rw [if_pos h4] at h; cases h
            · rw [if_neg h4] at h
              cases hfind2 : (hf ++ af).find? formBad with
              | some v => rw [hfind2] at h; cases h
              | none =>
                push_neg at h1 h2 h3 h4
                refine ⟨h1, h2, ?_, h3, h4, ?_⟩
                · intro r hr
                  have hb := List.find?_eq_none.mp hfind1 r hr
                  simp only [ratingBad, Bool.or_eq_true, decide_eq_true_eq, not_or,
                    not_lt] at hb
                  exact hb
                · intro v hv
                  have hb := List.find?_eq_none.mp hfind2 v hv
                  simp only [formBad, Bool.not_eq_true', Bool.or_eq_false_iff,
                    decide_eq_false_iff_not] at hb
                  by_contra hc
                  push_neg at hc
                  exact absurd hb (by simp [hc.1, hc.2.1, hc.2.2])
  · rintro ⟨h1, h2, hr, h3, h4, hv⟩
    have hfind1 : (hp ++ ap).find? ratingBad = none := by
      rw [List.find?_eq_none]
      intro x hx
      have hb := hr x hx
      simp only [ratingBad, Bool.or_eq_true, decide_eq_true_eq, not_or, not_lt]
      exact hb
    have hfind2 : (hf ++ af).find? formBad = none := by
      rw [List.find?_eq_none]
      intro x hx
      have hb := hv x hx
      simp only [formBad, Bool.not_eq_true, Bool.not_eq_true', Bool.or_eq_false_iff,
        decide_eq_false_iff_not]
      rcases hb with hb | hb | hb <;> simp [hb]
    rw [validate_inputs]
    rw [if_neg (fun hn => hn h1), if_neg (fun hn => hn h2)]
    simp only [hfind1]
    rw [if_neg (fun hn => hn h3), if_neg (fun hn => hn h4)]
    simp only [hfind2]

/-- C4: `predict_match` raises a `ValidationError` naming the violated
constraint exactly when a rating list has length other than 11, a rating lies
outside `[50, 99]`, a form list has length other than 5, or a form value is
not in `{0, 1, 3}`; in particular 10 or 12 ratings, or a form value of 2, are
rejected. -/
theorem predict_match_validation_characterization :
    (∀ (hp ap : List ℚ) (hf af : List ℤ),
      validate_inputs hp ap hf af = Except.ok () ↔
        (hp.length = 11 ∧ ap.length = 11 ∧ (∀ r ∈ hp ++ ap, 50 ≤ r ∧ r ≤ 99) ∧
         hf.length = 5 ∧ af.length = 5 ∧ (∀ v ∈ hf ++ af, v = 0 ∨ v = 1 ∨ v = 3))) ∧
    (∀ (trainer : Option (TModel FeatureVec)) (hp ap : List ℚ) (hf af : List ℤ)
        (e : ValidationError),
      validate_inputs hp ap hf af = Except.error e →
      predict_match trainer hp ap hf af = Except.error (PMErr.validation e)) ∧
    (∀ (hp ap : List ℚ) (hf af : List ℤ), hp.length = 10 ∨ hp.length = 12 →
      validate_inputs hp ap hf af = Except.error (ValidationError.homeCount hp.length)) ∧
    (∀ (hp ap : List ℚ) (hf af : List ℤ), (2 : ℤ) ∈ hf →
      validate_inputs hp ap hf af ≠ Except.ok ()) := by
  refine ⟨validate_ok_iff, ?_, ?_, ?_⟩
  · intro trainer hp ap hf af e he
    unfold predict_match
    rw [he]
  · intro hp ap hf af hlen
    unfold validate_inputs
    rw [if_pos (by rcases hlen with h | h <;> omega)]
  · intro hp ap hf af hmem hok
    obtain ⟨_, _, _, _, _, hv⟩ := (validate_ok_iff hp ap hf af).mp hok
    have := hv 2 (List.mem_append_left _ hmem)
    norm_num at this

/-- Closed instance of C4: ten home ratings are rejected with the error naming
the home-count constraint. -/
theorem predict_match_validation_characterization_witness :
    validate_inputs (List.replicate 10 75) (List.replicate 11 75) [3, 1, 0, 3, 1]
      [3, 1, 0, 3, 1] = Except.error (ValidationError.homeCount 10) := by
  have := predict_match_validation_characterization.2.2.1 (List.replicate 10 75)
    (List.replicate 11 75) [3, 1, 0, 3, 1] [3, 1, 0, 3, 1] (Or.inl (by simp))
  simpa using this

/-- C9: on any valid input, `predict_match` with no trained model available
raises the untrained-model error instead of fabricating a prediction. -/
theorem untrained_model_not_silent (hp ap : List ℚ) (hf af : List ℤ)
    (hval : validate_inputs hp ap hf af = Except.ok ()) :
    predict_match none hp ap hf af = Except.error PMErr.noModel := by
  unfold predict_match
  rw [hval]

/-- Closed instance of C9 at a concrete valid input. -/
theorem untrained_model_not_silent_witness :
    predict_match none (List.replicate 11 60) (List.replicate 11 60)
      [3, 1, 0, 3, 1] [3, 1, 0, 3, 1] = Except.error PMErr.noModel :=
  untrained_model_not_silent _ _ _ _ (by rfl)

/-! ## Constant-input statistics (claim C8) and Python rounding lemmas -/

theorem roundHalfEvenQ_intCast (n : ℤ) : roundHalfEvenQ (n : ℚ) = n := by
  unfold roundHalfEvenQ
  rw [Int.floor_intCast]
  norm_num

theorem roundHalfEvenQ_eq_of_gt (q : ℚ) (n : ℤ) (h1 : (n : ℚ) + 1/2 < q)
    (h2 : q < n + 1) : roundHalfEvenQ q = n + 1 := by
  have hf : ⌊q⌋ = n := by
    rw [Int.floor_eq_iff]
    exact ⟨by linarith, by linarith⟩
  unfold roundHalfEvenQ
  rw [hf, if_neg (by linarith), if_pos (by linarith)]

theorem pyRound1_intCast (n : ℤ) : pyRound1 (n : ℚ) = n := by
  unfold pyRound1
  rw [show (10 : ℚ) * (n : ℚ) = ((10 * n : ℤ) : ℚ) by push_cast; ring, roundHalfEvenQ_intCast]
  push_cast
  ring

/-- C8: `calculate_team_statistics` on eleven ratings of 99 yields
mean = median = max = min = 99, std = 0, range = 0, top3 = bottom3 = 99, and
`calculate_form_features` on `[3,3,3,3,3]` yields 15 points, 5 wins, 0 draws,
0 losses and win rate 1. -/
theorem constant_input_statistics :
    ((calculate_team_statistics (List.replicate 11 99)).mean_rating = 99 ∧
     (calculate_team_statistics (List.replicate 11 99)).median_rating = 99 ∧
     (calculate_team_statistics (List.replicate 11 99)).max_rating = 99 ∧
     (calculate_team_statistics (List.replicate 11 99)).min_rating = 99 ∧
     (calculate_team_statistics (List.replicate 11 99)).std_rating = 0 ∧
     (calculate_team_statistics (List.replicate 11 99)).rating_range = 0 ∧
     (calculate_team_statistics (List.replicate 11 99)).top3_avg = 99 ∧
     (calculate_team_statistics (List.replicate 11 99)).bottom3_avg = 99) ∧
    ((calculate_form_features [3, 3, 3, 3, 3]).total_points = 15 ∧
     (calculate_form_features [3, 3, 3, 3, 3]).wins = 5 ∧
     (calculate_form_features [3, 3, 3, 3, 3]).draws = 0 ∧
     (calculate_form_features [3, 3, 3, 3, 3]).losses = 0 ∧
     (calculate_form_features [3, 3, 3, 3, 3]).win_rate = 1) := by
  refine ⟨⟨?_, by decide, by decide, by decide, ?_, ?_, ?_, ?_⟩,
    by decide, by decide, by decide, by decide, ?_⟩
  · unfold calculate_team_statistics
    dsimp only []
    norm_num [List.sum_replicate]
  · unfold calculate_team_statistics
    dsimp only []
    rw [show ((List.replicate 11 (99 : ℚ)).map
        (fun r => (r - (List.replicate 11 (99 : ℚ)).sum /
          ((List.replicate 11 (99 : ℚ)).length : ℚ)) ^ 2)).sum /
        ((List.replicate 11 (99 : ℚ)).length : ℚ) = 0 by
      norm_num [List.sum_replicate, List.map_replicate]]
    rw [Rat.cast_zero, Real.sqrt_zero]
  · unfold calculate_team_statistics
    dsimp only []
    rw [show (List.replicate 11 (99 : ℚ)).insertionSort (· ≤ ·) = List.replicate 11 99
        by decide]
    rw [show (List.replicate 11 (99 : ℚ)).getLastD 0 = 99 by decide,
      show (List.replicate 11 (99 : ℚ)).headD 0 = 99 by decide]
    norm_num
  · unfold calculate_team_statistics
    dsimp only []
    rw [show ((List.replicate 11 (99 : ℚ)).insertionSort (· ≤ ·)).reverse.take 3
        = [99, 99, 99] by decide]
    norm_num
  · unfold calculate_team_statistics
    dsimp only []
    rw [show ((List.replicate 11 (99 : ℚ)).insertionSort (· ≤ ·)).take 3
        = [99, 99, 99] by decide]
    norm_num
  · unfold calculate_form_features
    dsimp only []
    rw [show List.countP (fun x => decide (x = 3)) [(3 : ℤ), 3, 3, 3, 3] = 5 by decide]
    norm_num
def constModel : TModel FeatureVec := TModel.single (fun _ => (2, 0))

def HPw : List ℚ := List.replicate 11 75

def HFw : List ℤ := [3, 1, 0, 3, 1]

def hash0 : String → ℤ := fun _ => 0

def stream0 : ℕ → RefDraws := fun _ => ⟨0, 0, 0, 0, 0, 0⟩

theorem trainer_one_const (f : FeatureVec) : trainer_predict_one constModel f = (2, 0) := by
  unfold constModel trainer_predict_one
  norm_num [roundHE_two, roundHE_zero, clipZ, max_def, min_def]

theorem meanQ_HPw : meanQ HPw = 75 := by
  unfold meanQ HPw
  norm_num [List.sum_replicate]

theorem pyRound1_zero : pyRound1 0 = 0 := by
  simpa using pyRound1_intCast 0

theorem pyRound1_c75 : pyRound1 75 = 75 := by
  simpa using pyRound1_intCast 75

theorem pm_eval : predict_match (some constModel) HPw HPw HFw HFw
    = Except.ok ⟨2, 0, "Home Win", 75, 75, 0, 8, 8, 0⟩ := by
  unfold predict_match
  rw [show validate_inputs HPw HPw HFw HFw = Except.ok () from rfl]
  simp only [trainer_one_const, meanQ_HPw]
  norm_num [pyRound1_zero, pyRound1_c75]
  decide

theorem refineNamed_eval0 : refineNamed hash0 stream0 "X" "Y" 2 0 0 0 = (2, 0) := by
  unfold refineNamed
  rw [show seedOf hash0 "X" "Y" = 0 from rfl]
  exact refine_eval_A

theorem pmd_eval : predict_match_detailed hash0 stream0 "X" "Y" (some constModel)
    HPw HPw HFw HFw
    = Except.ok ⟨(prob_triple 2 0 0).1, (prob_triple 2 0 0).2.1, (prob_triple 2 0 0).2.2,
        suggested_of (prob_triple 2 0 0).1 (prob_triple 2 0 0).2.1 (prob_triple 2 0 0).2.2,
        2, 0⟩ := by
  unfold predict_match_detailed
  rw [pm_eval]
  simp only [Rat.cast_zero, Int.cast_zero, refineNamed_eval0]
  norm_num

/-- Closed instance of C1 at a concrete call that returns. -/
theorem pmd_probabilities_valid_witness :
    ∃ r, predict_match_detailed hash0 stream0 "X" "Y" (some constModel) HPw HPw HFw HFw
        = Except.ok r ∧
      ((0 ≤ r.home_win ∧ r.home_win ≤ 1) ∧ (0 ≤ r.draw ∧ r.draw ≤ 1) ∧
       (0 ≤ r.away_win ∧ r.away_win ≤ 1) ∧
       r.home_win + r.draw + r.away_win = 1 ∧
       |r.home_win + r.draw + r.away_win - 1| ≤ 1e-6) :=
  ⟨_, pmd_eval,
    pmd_probabilities_valid hash0 stream0 "X" "Y" (some constModel) HPw HPw HFw HFw _
      pmd_eval⟩

/-- C5: the probability triple of `predict_match_detailed` is computed by
exactly the algorithm the spec states (tie bias, temperature-1.65 logits,
exponentiation, neutral-prior blend with clip, renormalization), with `diff`
taken from the refined scores and the suggested outcome the argmax label with
the `_win` suffix removed. -/
theorem pmd_prob_algorithm :
    (∀ (diff : ℤ) (se fe : ℝ),
      prob_triple diff se fe
        = (spec_probs diff se fe Outcome.home, spec_probs diff se fe Outcome.draw,
           spec_probs diff se fe Outcome.away)) ∧
    (∀ (h : String → ℤ) (stream : ℕ → RefDraws) (hn an : String)
        (trainer : Option (TModel FeatureVec)) (hp ap : List ℚ) (hf af : List ℤ)
        (pm : PredResult) (r : DetailedResult),
      predict_match trainer hp ap hf af = Except.ok pm →
      predict_match_detailed h stream hn an trainer hp ap hf af = Except.ok r →
      (r.home_win, r.draw, r.away_win)
          = prob_triple (r.home_score - r.away_score) (pm.strength_advantage : ℝ)
            (pm.form_advantage : ℝ) ∧
        r.suggested = suggested_of r.home_win r.draw r.away_win) ∧
    (∀ h d a : ℝ,
      (d > h ∧ d > a → suggested_of h d a = "draw") ∧
      (a > h ∧ a > d → suggested_of h d a = "away") ∧
      (h ≥ d ∧ h ≥ a → suggested_of h d a = "home")) := by
  refine ⟨fun diff se fe => rfl, ?_, ?_⟩
  · intro h stream hn an trainer hp ap hf af pm r hpm hr
    unfold predict_match_detailed at hr
    rw [hpm] at hr
    injection hr with h2
    subst h2
    exact ⟨rfl, rfl⟩
  · intro h d a
    refine ⟨?_, ?_, ?_⟩
    · rintro ⟨h1, h2⟩
      have hc1 : ¬(h ≥ d ∧ h ≥ a) := fun hc => absurd h1 (not_lt.mpr hc.1)
      unfold suggested_of
      rw [if_neg hc1, if_pos (le_of_lt h2)]
    · rintro ⟨h1, h2⟩
      have hc1 : ¬(h ≥ d ∧ h ≥ a) := fun hc => absurd h1 (not_lt.mpr hc.2)
      unfold suggested_of
      rw [if_neg hc1, if_neg (not_le.mpr h2)]
    · intro hc
      unfold suggested_of
      rw [if_pos hc]

/-- Closed instance of C5's link between `predict_match_detailed` and the
probability algorithm at a concrete call. -/
theorem pmd_prob_algorithm_witness :
    ∃ pm r, predict_match (some constModel) HPw HPw HFw HFw = Except.ok pm ∧
      predict_match_detailed hash0 stream0 "X" "Y" (some constModel) HPw HPw HFw HFw
        = Except.ok r ∧
      ((r.home_win, r.draw, r.away_win)
          = prob_triple (r.home_score - r.away_score) (pm.strength_advantage : ℝ)
            (pm.form_advantage : ℝ) ∧
        r.suggested = suggested_of r.home_win r.draw r.away_win) :=
  ⟨_, _, pm_eval, pmd_eval,
    pmd_prob_algorithm.2.1 hash0 stream0 "X" "Y" (some constModel) HPw HPw HFw HFw _ _
      pm_eval pmd_eval⟩
def HP7 : List ℚ := [88, 90, 87, 92, 89, 86, 91, 88, 90, 87, 93]

def AP7 : List ℚ := [85, 87, 84, 88, 86, 83, 87, 85, 88, 84, 90]

def HF7 : List ℤ := [3, 3, 1, 3, 3]

def AF7 : List ℤ := [3, 1, 0, 3, 1]

theorem meanQ_HP7 : meanQ HP7 = 981 / 11 := by
  unfold meanQ HP7
  norm_num

theorem meanQ_AP7 : meanQ AP7 = 947 / 11 := by
  unfold meanQ AP7
  norm_num

theorem pyRound1_sa7 : pyRound1 (34 / 11) = 31 / 10 := by
  unfold pyRound1
  rw [show (10 : ℚ) * (34 / 11) = 340 / 11 by norm_num]
  rw [roundHalfEvenQ_eq_of_gt (340 / 11) 30 (by norm_num) (by norm_num)]
  norm_num

theorem pyRound1_hs7 : pyRound1 (981 / 11) = 446 / 5 := by
  unfold pyRound1
  rw [show (10 : ℚ) * (981 / 11) = 9810 / 11 by norm_num]
  rw [roundHalfEvenQ_eq_of_gt (9810 / 11) 891 (by norm_num) (by norm_num)]
  norm_num

theorem pyRound1_as7 : pyRound1 (947 / 11) = 861 / 10 := by
  unfold pyRound1
  rw [show (10 : ℚ) * (947 / 11) = 9470 / 11 by norm_num]
  rw [roundHalfEvenQ_eq_of_gt (9470 / 11) 860 (by norm_num) (by norm_num)]
  norm_num

theorem pm7_eval : predict_match (some constModel) HP7 AP7 HF7 AF7
    = Except.ok ⟨2, 0, "Home Win", 446 / 5, 861 / 10, 31 / 10, 13, 8, 5⟩ := by
  unfold predict_match
  rw [show validate_inputs HP7 AP7 HF7 AF7 = Except.ok () from rfl]
  simp only [trainer_one_const, meanQ_HP7, meanQ_AP7]
  rw [show (981 / 11 - 947 / 11 : ℚ) = 34 / 11 by norm_num]
  rw [show HF7.sum = 13 from by decide, show AF7.sum = 8 from by decide]
  norm_num [pyRound1_sa7, pyRound1_hs7, pyRound1_as7]

/-- C7 (amended): on the end-to-end example input, for any fitted model,
`predict_match` returns a result label in {Home Win, Draw, Away Win},
`home_form_points = 13`, `away_form_points = 8`, `form_advantage = 5`, and a
`strength_advantage` of exactly `3.1` — in the range `+2.5` to `+3.1`, not the
claimed `+2.5` to `+3.0`. -/
theorem e2e_example_amended (M : TModel FeatureVec) (r : PredResult)
    (hok : predict_match (some M) HP7 AP7 HF7 AF7 = Except.ok r) :
    (r.result = "Home Win" ∨ r.result = "Draw" ∨ r.result = "Away Win") ∧
    (5 / 2 ≤ r.strength_advantage ∧ r.strength_advantage ≤ 31 / 10) ∧
    r.strength_advantage = 31 / 10 ∧
    r.home_form_points = 13 ∧ r.away_form_points = 8 ∧ r.form_advantage = 5 := by
  unfold predict_match at hok
  rw [show validate_inputs HP7 AP7 HF7 AF7 = Except.ok () from rfl] at hok
  injection hok with h2
  subst h2
  refine ⟨?_, ?_, ?_, ?_, ?_, ?_⟩
  · dsimp only []
    split_ifs <;> simp
  · dsimp only []
    rw [meanQ_HP7, meanQ_AP7, show (981 / 11 - 947 / 11 : ℚ) = 34 / 11 by norm_num,
      pyRound1_sa7]
    norm_num
  · dsimp only []
    rw [meanQ_HP7, meanQ_AP7, show (981 / 11 - 947 / 11 : ℚ) = 34 / 11 by norm_num,
      pyRound1_sa7]
  · dsimp only []
    decide
  · dsimp only []
    decide
  · dsimp only []
    decide

/-- C7 counterexample: on the end-to-end example input the returned
`strength_advantage` is `31/10 = 3.1`, which is not `≤ 3.0`; the claimed range
`+2.5` to `+3.0` excludes the actual value (the raw mean difference is
`981/11 - 947/11 = 34/11 ≈ 3.09`, rounded to one decimal place). -/
theorem e2e_strength_advantage_counterexample :
    ∃ r, predict_match (some constModel) HP7 AP7 HF7 AF7 = Except.ok r ∧
      r.strength_advantage = 31 / 10 ∧ ¬(r.strength_advantage ≤ 3) := by
  refine ⟨_, pm7_eval, rfl, ?_⟩
  norm_num

/-- Closed instance of C7's amended statement at a concrete fitted model. -/
theorem e2e_example_amended_witness :
    ∃ r, predict_match (some constModel) HP7 AP7 HF7 AF7 = Except.ok r ∧
      ((r.result = "Home Win" ∨ r.result = "Draw" ∨ r.result = "Away Win") ∧
       (5 / 2 ≤ r.strength_advantage ∧ r.strength_advantage ≤ 31 / 10) ∧
       r.strength_advantage = 31 / 10 ∧
       r.home_form_points = 13 ∧ r.away_form_points = 8 ∧ r.form_advantage = 5) :=
  ⟨_, pm7_eval, e2e_example_amended constModel _ pm7_eval⟩
